import Mathlib

/-
Verification of the HerForecast data-processing pipeline and frontend API client.

The offline pipeline (merge_data.py / normalize_data.py / build_body_state_score.py)
is documented in Backend/Files/Data_Processing_Documentation.md; the scripts
themselves are not part of the repository snapshot, so the pipeline stages are
modelled here from that documentation and the specification, over exact rational
arithmetic.  The frontend API client (fetchPrediction and friends) is embedded
directly from its TypeScript source.
-/

namespace HerForecast

/-! ## List statistics shared by several pipeline stages -/

/-- Arithmetic mean of a list of rationals (sum divided by length; `0` for `[]`). -/
def lmean (l : List ℚ) : ℚ := l.sum / l.length

/-- Population variance of a list of rationals: mean squared deviation from `lmean`. -/
def pvar (l : List ℚ) : ℚ := ((l.map (fun x => (x - lmean l) ^ 2)).sum) / l.length

/-- Sample variance over a window, with the documented partial-window policy that a
single observation has zero spread (pandas would use ddof = 1 on larger windows). -/
def lvarSamp (l : List ℚ) : ℚ :=
  if l.length ≤ 1 then 0
  else ((l.map (fun x => (x - lmean l) ^ 2)).sum) / ((l.length : ℚ) - 1)

/-- Median in the pandas sense: sort ascending, take the middle element for odd
length and the average of the two middle elements for even length. -/
def median (l : List ℚ) : ℚ :=
  let s := List.insertionSort (fun a b : ℚ => a ≤ b) l
  if l.length % 2 = 1 then s.getD (l.length / 2) 0
  else (s.getD (l.length / 2 - 1) 0 + s.getD (l.length / 2) 0) / 2

/-! ## Per-participant z-score normalization (normalize_data.py, section 4.5) -/

/-- Modelled from the spec: the Participant Baseline of `normalize_data.py`
(script missing from the repository snapshot; Data_Processing_Documentation.md
section 4.5 and spec section 3).  For one participant and one continuous-personal
column it stores the `(mean, std)` computed over that participant's own
non-missing observations; the std is carried as a rational satisfying
`std ^ 2 = pvar observations`. -/
structure Baseline where
  mean : ℚ
  std : ℚ
deriving DecidableEq

/-- `b` is the baseline derived from the participant's non-null observations `xs`:
its mean is their mean and its std squares to their population variance. -/
def IsBaselineFor (xs : List ℚ) (b : Baseline) : Prop :=
  b.mean = lmean xs ∧ b.std ^ 2 = pvar xs

/-- Modelled from the spec: the per-participant z-score transform of
`normalize_data.py` (missing from the snapshot; Data_Processing_Documentation.md
section 4.5): `z = (value - participant_mean) / participant_std`, with the
documented contract that a zero std yields `z = 0` for all of the participant's
observations instead of dividing by zero. -/
def zscore (b : Baseline) (v : ℚ) : ℚ :=
  if b.std = 0 then 0 else (v - b.mean) / b.std

/-- The documented inverse transform: `raw = z * participant_std + participant_mean`
(Data_Processing_Documentation.md section 6.3). -/
def invertZ (b : Baseline) (z : ℚ) : ℚ := z * b.std + b.mean

/-- The 26 continuous-personal columns that are z-scored per participant
(Data_Processing_Documentation.md section 4.5). -/
def zscoredColumns : List String :=
  ["wrist_temp_mean", "wrist_temp_min", "wrist_temp_max", "wrist_temp_std",
   "oxygen_ratio_mean", "oxygen_ratio_min", "oxygen_ratio_max", "oxygen_ratio_std",
   "rmssd_mean", "rmssd_std", "coverage_mean", "low_frequency_mean", "high_frequency_mean",
   "stress_score_mean", "stress_score_max", "sleep_points_mean",
   "responsiveness_points_mean", "exertion_points_mean",
   "nightly_temp_mean", "baseline_rel_sample_sum", "baseline_rel_sample_sum_sq",
   "baseline_rel_nightly_std", "baseline_rel_sample_std",
   "lh", "estrogen", "pdg"]

/-! ## Missing value imputation (normalize_data.py, section 4.7) -/

/-- The column classes the Imputer distinguishes (spec section 4.5 of the design). -/
inductive ColumnClass where
  | zscored
  | ordinal
  | coverage
  | time
deriving DecidableEq

/-- Modelled from the spec: the per-column fill value used by the Imputer of
`normalize_data.py` (missing from the snapshot; Data_Processing_Documentation.md
section 4.7): `0` for z-scored columns, otherwise the median of the non-missing
values of the fitting population. -/
def fillValue (c : ColumnClass) (fit : List (Option ℚ)) : ℚ :=
  match c with
  | ColumnClass.zscored => 0
  | _ => median (fit.filterMap id)

/-- Modelled from the spec: one column pass of the Imputer of `normalize_data.py`
(missing from the snapshot).  `fit` is the fitting population for the column,
`col` the column being imputed; every missing cell is replaced by the class fill
value and present cells are untouched. -/
def imputeColumn (c : ColumnClass) (fit : List (Option ℚ)) (col : List (Option ℚ)) :
    List (Option ℚ) :=
  col.map (fun o => some (o.getD (fillValue c fit)))

/-! ## Temporal Feature Builder rows and sorting (build_body_state_score.py) -/

/-- One input row of a single feature column of the daily table: participant id,
day, and the column value for that day. -/
structure SRow where
  id : ℕ
  day : ℕ
  value : ℚ
deriving DecidableEq

/-- The sort key of the Temporal Feature Builder: `(participant id, day)`. -/
def rkey (r : SRow) : ℕ × ℕ := (r.id, r.day)

/-- Ascending lexicographic comparison on `(id, day)`. -/
def rowLE (a b : SRow) : Prop :=
  (rkey a).1 < (rkey b).1 ∨ ((rkey a).1 = (rkey b).1 ∧ (rkey a).2 ≤ (rkey b).2)

instance (a b : SRow) : Decidable (rowLE a b) := by
  unfold rowLE
  exact inferInstance

instance : IsTotal SRow rowLE := by
  constructor
  intro a b
  unfold rowLE
  omega

instance : IsTrans SRow rowLE := by
  constructor
  intro a b c
  unfold rowLE
  omega

/-- Strict version of `rowLE` used to show sorted orders with distinct keys are
canonical. -/
def rowLT (a b : SRow) : Prop := rowLE a b ∧ rkey a ≠ rkey b

instance : IsAntisymm SRow rowLT := by
  constructor
  intro a b hab hba
  exfalso
  apply hab.2
  have h1 := hab.1
  have h2 := hba.1
  unfold rowLE at h1 h2
  have h3 : (rkey a).1 = (rkey b).1 ∧ (rkey a).2 = (rkey b).2 := by omega
  exact Prod.ext h3.1 h3.2

/-- Modelled from the spec: the sort the Temporal Feature Builder performs before
any lag/rolling operation (build_body_state_score.py is missing from the
snapshot; Data_Processing_Documentation.md section on history context sorts each
participant's data by day). -/
def sortRows (l : List SRow) : List SRow := List.insertionSort rowLE l

/-- The integrity precondition guaranteed by the Aggregator: no two rows of the
daily table share a `(participant, day)` key. -/
def KeysNodup (rows : List SRow) : Prop := (rows.map rkey).Nodup

instance (rows : List SRow) : Decidable (KeysNodup rows) := by
  unfold KeysNodup
  exact inferInstance

/-- One output row of the Temporal Feature Builder for a single feature column:
the lag-1 value, the delta, and the trailing up-to-3-day rolling mean and
(sample) variance.  The rolling std of the documentation is the square root of
`roll3_var`, so equality of `roll3_var` decides equality of the std as well. -/
structure TRow where
  id : ℕ
  day : ℕ
  value : ℚ
  lag1 : Option ℚ
  delta : Option ℚ
  roll3_mean : ℚ
  roll3_var : ℚ
deriving DecidableEq

/-- Modelled from the spec: the in-order feature pass of the Temporal Feature
Builder (missing from the snapshot) over one participant's day-ordered sequence.
`hist` is the reversed list of the participant's prior values; lag-1 is the
previous value, delta is today minus lag-1, and the rolling statistics are taken
over the current value together with up to 2 prior values. -/
def buildFeats : List ℚ → List SRow → List TRow
  | _, [] => []
  | hist, r :: rest =>
    let lag1 : Option ℚ := hist.head?
    { id := r.id, day := r.day, value := r.value,
      lag1 := lag1,
      delta := lag1.map (fun p => r.value - p),
      roll3_mean := lmean ((r.value :: hist).take 3),
      roll3_var := lvarSamp ((r.value :: hist).take 3) } :: buildFeats (r.value :: hist) rest

/-- Modelled from the spec: the Temporal Feature Builder for participant `p`
(missing from the snapshot; Data_Processing_Documentation.md, history-context
section): sort the table by `(id, day)`, restrict to `p`'s own rows, then run
the lag/delta/rolling pass over that sequence alone. -/
def temporalFeatures (rows : List SRow) (p : ℕ) : List TRow :=
  buildFeats [] ((sortRows rows).filter (fun r => r.id == p))

/-! ## Merger (merge_data.py, sections 3.3 and 3.4) -/

/-- The join key tuple shared by the six per-day tables:
`(id, study_interval, is_weekend, day_in_study)`. -/
structure MKey where
  id : ℕ
  study_interval : ℕ
  is_weekend : Bool
  day_in_study : ℕ
deriving DecidableEq

/-- The documented final sort order of the merged table: ascending lexicographic
on `(id, study_interval, day_in_study)` (the weekend flag is not a sort key). -/
def mkeyLE (a b : MKey) : Prop :=
  a.id < b.id ∨ (a.id = b.id ∧ (a.study_interval < b.study_interval ∨
    (a.study_interval = b.study_interval ∧ a.day_in_study ≤ b.day_in_study)))

instance (a b : MKey) : Decidable (mkeyLE a b) := by
  unfold mkeyLE
  exact inferInstance

instance : IsTotal MKey mkeyLE := by
  constructor
  intro a b
  unfold mkeyLE
  omega

instance : IsTrans MKey mkeyLE := by
  constructor
  intro a b c
  unfold mkeyLE
  omega

/-- Modelled from the spec: one step of the sequential outer join of
`merge_data.py` (script missing from the snapshot; Data_Processing_Documentation.md
section 3.3), viewed at the level of key tuples: the result carries every key of
the left table and every key of the right table not already present. -/
def outerJoinKeys (t1 t2 : List MKey) : List MKey :=
  t1 ++ t2.filter (fun k => !(decide (k ∈ t1)))

/-- Modelled from the spec: the whole merge of `merge_data.py` (missing from the
snapshot): outer-join the base hormones/self-report table with the five
aggregated sensor tables in the documented order, then sort by
`(id, study_interval, day_in_study)`. -/
def mergeAllKeys (base t1 t2 t3 t4 t5 : List MKey) : List MKey :=
  List.insertionSort mkeyLE
    (outerJoinKeys (outerJoinKeys (outerJoinKeys (outerJoinKeys
      (outerJoinKeys base t1) t2) t3) t4) t5)

/-! ## Cleaner and ordinal Encoder (normalize_data.py, sections 4.1, 4.2, 4.6) -/

/-- Modelled from the spec: the Cleaner of `normalize_data.py` (missing from the
snapshot; Data_Processing_Documentation.md section 4.1): numeric-string severity
codes are mapped back to their canonical text labels; all other values pass
through unchanged. -/
def cleanOrdinalValue (s : String) : String :=
  if s = "1" then "Very Low/Little"
  else if s = "2" then "Low"
  else if s = "3" then "Moderate"
  else if s = "4" then "High"
  else if s = "5" then "Very High"
  else s

/-- Modelled from the spec: the fixed severity label table of
Data_Processing_Documentation.md section 4.2 for the 12 symptom columns
(`normalize_data.py` missing from the snapshot); unknown labels are an error. -/
def encodeSeverity (s : String) : Option ℕ :=
  if s = "Not at all" then some 0
  else if s = "Very Low/Little" then some 1
  else if s = "Very Low" then some 1
  else if s = "Low" then some 2
  else if s = "Moderate" then some 3
  else if s = "High" then some 4
  else if s = "Very High" then some 5
  else none

/-- Modelled from the spec: the fixed 8-level `flow_volume` label table of
Data_Processing_Documentation.md section 4.2 (`normalize_data.py` missing from
the snapshot). -/
def encodeFlowVolume (s : String) : Option ℕ :=
  if s = "Not at all" then some 0
  else if s = "Spotting / Very Light" then some 1
  else if s = "Light" then some 2
  else if s = "Somewhat Light" then some 3
  else if s = "Moderate" then some 4
  else if s = "Somewhat Heavy" then some 5
  else if s = "Heavy" then some 6
  else if s = "Very Heavy" then some 7
  else none

/-- Min-max scaling of an encoded symptom level by the fixed theoretical maximum 5
(not an empirical data range). -/
def scaleSeverity (n : ℕ) : ℚ := (n : ℚ) / 5

/-- Min-max scaling of an encoded `flow_volume` level by the fixed theoretical
maximum 7 (not an empirical data range). -/
def scaleFlowVolume (n : ℕ) : ℚ := (n : ℚ) / 7

/-! ## Coverage ratios and the final schema (sections 4.4 and 6) -/

/-- The four high-frequency sensors whose raw daily sample counts become coverage
ratios. -/
inductive Sensor where
  | wristTemp
  | oxygenRatio
  | hrv
  | stressScore
deriving DecidableEq

/-- The fixed expected daily maximum number of readings per sensor
(Data_Processing_Documentation.md section 4.4). -/
def expectedDailyMax : Sensor → ℕ
  | Sensor.wristTemp => 1440
  | Sensor.oxygenRatio => 1440
  | Sensor.hrv => 288
  | Sensor.stressScore => 4

/-- Clip a rational into the interval `[0, 1]`. -/
def clip01 (q : ℚ) : ℚ := min 1 (max 0 q)

/-- Modelled from the spec: the coverage-ratio derivation of `normalize_data.py`
(missing from the snapshot; Data_Processing_Documentation.md section 4.4 and
spec section 4.4): raw daily count divided by the sensor's fixed expected daily
maximum, clipped to `[0, 1]`. -/
def coverageRatio (s : Sensor) (count : ℕ) : ℚ :=
  clip01 ((count : ℚ) / (expectedDailyMax s : ℚ))

/-- The raw count column each sensor had in the merged table. -/
def countColumn : Sensor → String
  | Sensor.wristTemp => "wrist_temp_count"
  | Sensor.oxygenRatio => "oxygen_ratio_count"
  | Sensor.hrv => "hrv_count"
  | Sensor.stressScore => "stress_count"

/-- The coverage column that replaces each raw count column. -/
def coverageColumn : Sensor → String
  | Sensor.wristTemp => "wrist_temp_coverage"
  | Sensor.oxygenRatio => "oxygen_ratio_coverage"
  | Sensor.hrv => "hrv_coverage"
  | Sensor.stressScore => "stress_coverage"

/-- Modelled from the spec: the 60-column schema of `normalized_women_data.csv`
(Data_Processing_Documentation.md section 6, columns 1 to 60; the generating
script is missing from the snapshot).  The raw count columns are absent. -/
def finalSchema : List String :=
  ["id", "study_interval", "is_weekend", "day_in_study",
   "lh", "estrogen", "pdg",
   "flow_volume", "appetite", "exerciselevel", "headaches", "cramps", "sorebreasts",
   "fatigue", "sleepissue", "moodswing", "stress", "foodcravings", "indigestion", "bloating",
   "wrist_temp_mean", "wrist_temp_min", "wrist_temp_max", "wrist_temp_std",
   "oxygen_ratio_mean", "oxygen_ratio_min", "oxygen_ratio_max", "oxygen_ratio_std",
   "rmssd_mean", "rmssd_std", "coverage_mean", "low_frequency_mean", "high_frequency_mean",
   "stress_score_mean", "stress_score_max", "sleep_points_mean",
   "responsiveness_points_mean", "exertion_points_mean",
   "nightly_temp_mean", "baseline_rel_sample_sum", "baseline_rel_sample_sum_sq",
   "baseline_rel_nightly_std", "baseline_rel_sample_std",
   "phase_Fertility", "phase_Follicular", "phase_Luteal", "phase_Menstrual",
   "flow_color_Black", "flow_color_Bright Red", "flow_color_Dark Brown / Dark Red",
   "flow_color_Grey", "flow_color_Not at all", "flow_color_Orange", "flow_color_Other",
   "flow_color_Pink", "flow_color_Yellow",
   "wrist_temp_coverage", "oxygen_ratio_coverage", "hrv_coverage", "stress_coverage"]

/-! ## One-hot encoding (normalize_data.py, section 4.3) -/

/-- The 4 fixed `phase` categories (Data_Processing_Documentation.md section 4.3). -/
def phaseCategories : List String :=
  ["Fertility", "Follicular", "Luteal", "Menstrual"]

/-- The 9 fixed `flow_color` categories (Data_Processing_Documentation.md
section 4.3). -/
def flowColorCategories : List String :=
  ["Black", "Bright Red", "Dark Brown / Dark Red", "Grey", "Not at all",
   "Orange", "Other", "Pink", "Yellow"]

/-- Modelled from the spec: the one-hot encoding of `normalize_data.py` (missing
from the snapshot; Data_Processing_Documentation.md section 4.3): one indicator
column per category, `1` exactly where the source value equals that category,
all zeros for a null source value. -/
def oneHot (cats : List String) (v : Option String) : List ℕ :=
  cats.map (fun c => if v = some c then 1 else 0)

/-- Exactly one entry of the indicator list is `1` and every entry is `0` or `1`. -/
def ExactlyOneHot (l : List ℕ) : Prop :=
  l.count 1 = 1 ∧ ∀ x ∈ l, x = 1 ∨ x = 0

instance (l : List ℕ) : Decidable (ExactlyOneHot l) := by
  unfold ExactlyOneHot
  exact inferInstance

/-! ## Blended burden target (build_body_state_score.py, section 10.2) -/

/-- The per-day inputs of the v2 target: the 12 ordinal symptom values and the
normalized stress and recovery components. -/
structure BurdenRow where
  symptoms : List ℚ
  stress_component : ℚ
  recovery_component : ℚ
deriving DecidableEq

/-- Modelled from the spec: `symptom_burden_today` of `build_body_state_score.py`
(missing from the snapshot; Data_Processing_Documentation.md section 10.2), the
mean of the 12 ordinal symptom columns. -/
def symptomBurden (r : BurdenRow) : ℚ := lmean r.symptoms

/-- Modelled from the spec: `blended_burden_today` of `build_body_state_score.py`
(missing from the snapshot; Data_Processing_Documentation.md section 10.2):
`0.55 * symptom_burden + 0.30 * stress_component + 0.15 * (1 - recovery_component)`. -/
def blendedBurden (r : BurdenRow) : ℚ :=
  0.55 * symptomBurden r + 0.30 * r.stress_component + 0.15 * (1 - r.recovery_component)

/-- Modelled from the spec: the label `target_body_state_score` of
`build_body_state_score.py` (missing from the snapshot): for a participant's
day-ordered sequence, `100 * (1 - blended_burden of the next day)`, and `none`
at the participant's last observed day (the per-participant shift by -1). -/
def nextDayTarget : List BurdenRow → List (Option ℚ)
  | [] => []
  | [_] => [none]
  | _ :: d2 :: rest => some (100 * (1 - blendedBurden d2)) :: nextDayTarget (d2 :: rest)

/-! ## Frontend API client (src/unnamed/part_000, lines 62-112) -/

/-- A JSON value, the type of a parsed HTTP response body. -/
inductive Json where
  | null : Json
  | jbool : Bool → Json
  | jnum : ℚ → Json
  | jstr : String → Json
  | jarr : List Json → Json
  | jobj : List (String × Json) → Json

/-- Field access on a parsed JSON object, as `data.users` does in the client
(`Json.null` when absent or when the value is not an object). -/
def getField (j : Json) (name : String) : Json :=
  match j with
  | Json.jobj fields =>
    match fields.find? (fun f => f.1 == name) with
    | some f => f.2
    | none => Json.null
  | _ => Json.null

/-- An HTTP response as the client observes it: the `ok` flag, the status code,
and the parsed JSON body that `res.json()` would produce. -/
structure HttpResponse where
  ok : Bool
  status : ℕ
  body : Json

/-- `fetchPrediction` (part_000 lines 62-69): throw on a non-ok response, else
return the parsed body. -/
def fetchPrediction (r : HttpResponse) : Except String Json :=
  if r.ok then Except.ok r.body
  else Except.error ("Prediction request failed: " ++ toString r.status)

/-- `fetchUsers` (part_000 lines 74-79): throw on a non-ok response, else return
the `users` field of the parsed body. -/
def fetchUsers (r : HttpResponse) : Except String Json :=
  if r.ok then Except.ok (getField r.body "users")
  else Except.error ("Users request failed: " ++ toString r.status)

/-- `fetchTimeline` (part_000 lines 84-88): throw on a non-ok response, else
return the parsed body. -/
def fetchTimeline (r : HttpResponse) : Except String Json :=
  if r.ok then Except.ok r.body
  else Except.error ("Timeline request failed: " ++ toString r.status)

/-- `fetchModelInfo` (part_000 lines 93-97): throw on a non-ok response, else
return the parsed body. -/
def fetchModelInfo (r : HttpResponse) : Except String Json :=
  if r.ok then Except.ok r.body
  else Except.error ("Model info request failed: " ++ toString r.status)

/-- `simulatePrediction` (part_000 lines 102-112): POST the request payload,
throw on a non-ok response, else return the parsed body.  The posted payload
does not influence the client-side response handling. -/
def simulatePrediction (req : Json) (r : HttpResponse) : Except String Json :=
  if r.ok then Except.ok r.body
  else Except.error ("Simulation request failed: " ++ toString r.status)

/-! ## Shared lemmas about list statistics -/

theorem sum_eq_zero_of_nonneg :
    ∀ (l : List ℚ), (∀ x ∈ l, 0 ≤ x) → l.sum = 0 → ∀ x ∈ l, x = 0
  | [], _, _, _, hx => absurd hx (List.not_mem_nil _)
  | a :: t, h, hs, x, hx => by
    have ht : 0 ≤ t.sum := List.sum_nonneg (fun y hy => h y (List.mem_cons_of_mem a hy))
    have ha : 0 ≤ a := h a (List.mem_cons_self a t)
    rw [List.sum_cons] at hs
    rcases List.mem_cons.mp hx with rfl | hx2
    · linarith
    · exact sum_eq_zero_of_nonneg t (fun y hy => h y (List.mem_cons_of_mem a hy))
        (by linarith) x hx2

theorem pvar_eq_zero_all_mean (l : List ℚ) (hne : l ≠ []) (hv : pvar l = 0) :
    ∀ v ∈ l, v = lmean l := by
  intro v hv2
  have hlen : l.length ≠ 0 := by
    intro h0
    exact hne (List.length_eq_zero.mp h0)
  have hsum : ((l.map (fun x => (x - lmean l) ^ 2)).sum) = 0 := by
    unfold pvar at hv
    rcases div_eq_zero_iff.mp hv with h | h
    · exact h
    · exact absurd (Nat.cast_injective (h.trans (Nat.cast_zero).symm)) hlen
  have hz := sum_eq_zero_of_nonneg _
    (by
      intro x hx
      rcases List.mem_map.mp hx with ⟨y, _, rfl⟩
      positivity)
    hsum ((v - lmean l) ^ 2) (List.mem_map_of_mem _ hv2)
  have hz2 : v - lmean l = 0 :=
    (pow_eq_zero_iff (by norm_num : (2 : ℕ) ≠ 0)).mp hz
  linarith

/-! ## C1 and C9: per-participant z-scoring -/

/-- C1: for every non-imputed value of a per-participant z-scored column (the 26
continuous-personal columns), the inverse transform `z * participant_std +
participant_mean` applied to the encoder's output recovers the original raw
value within 1e-9, where the baseline `(mean, std)` is computed over the
participant's own non-missing observations. -/
theorem c1_zscore_reversibility :
    zscoredColumns.length = 26 ∧
    ∀ (xs : List ℚ) (b : Baseline) (v : ℚ), IsBaselineFor xs b → v ∈ xs →
      |invertZ b (zscore b v) - v| ≤ 1 / 1000000000 := by
  constructor
  · rfl
  · intro xs b v hb hv
    have key : invertZ b (zscore b v) = v := by
      by_cases hstd : b.std = 0
      · have hne : xs ≠ [] := by
          rintro rfl
          exact absurd hv (List.not_mem_nil v)
        have hvar : pvar xs = 0 := by
          rw [← hb.2, hstd]
          ring
        have hvm : v = lmean xs := pvar_eq_zero_all_mean xs hne hvar v hv
        simp only [invertZ, zscore, if_pos hstd, hstd, hb.1, hvm]
        ring
      · simp only [invertZ, zscore, if_neg hstd]
        field_simp
    rw [key, sub_self, abs_zero]
    norm_num

/-- Witness for C1: the baseline of observations `[1, 1, 3, 3]` is `(2, 1)` and
the z-score of the observation `1` inverts back to `1`. -/
theorem c1_zscore_reversibility_witness :
    |invertZ ⟨2, 1⟩ (zscore ⟨2, 1⟩ 1) - 1| ≤ 1 / 1000000000 :=
  c1_zscore_reversibility.2 [1, 1, 3, 3] ⟨2, 1⟩ 1
    (by constructor <;> norm_num [lmean, pvar]) (by simp)

/-- C9: whenever a participant's standard deviation over their own non-null
observations of a column is 0 (zero population variance), the z-score transform
returns 0 for every value, and no division by zero is performed (the `std = 0`
branch of `zscore` bypasses the division). -/
theorem c9_zero_std_contract :
    ∀ (xs : List ℚ) (b : Baseline), IsBaselineFor xs b → pvar xs = 0 →
      b.std = 0 ∧ ∀ v : ℚ, zscore b v = 0 := by
  intro xs b hb hvar
  have hstd : b.std = 0 := by
    have h2 : b.std ^ 2 = 0 := by rw [hb.2, hvar]
    exact (pow_eq_zero_iff (two_ne_zero)).mp h2
  refine ⟨hstd, fun v => ?_⟩
  simp [zscore, hstd]

/-- Witness for C9: a participant whose observations are constantly `2` has
baseline `(2, 0)` and z-score `0` at the observation `5`. -/
theorem c9_zero_std_contract_witness : zscore ⟨2, 0⟩ 5 = 0 :=
  (c9_zero_std_contract [2, 2] ⟨2, 0⟩
    (by constructor <;> norm_num [lmean, pvar]) (by norm_num [lmean, pvar])).2 5

/-! ## C2: the Imputer -/

/-- C2: after the Imputer runs, every cell of the imputed column is present (zero
missing values); a missing cell of a z-scored column is filled with 0, a missing
cell of an ordinal, coverage, or time column with the median computed over the
non-missing values of the fitting population; present cells are unchanged. -/
theorem c2_imputer_no_missing :
    ∀ (c : ColumnClass) (fit col : List (Option ℚ)),
      (∀ x ∈ imputeColumn c fit col, x.isSome = true)
      ∧ (imputeColumn c fit col).length = col.length
      ∧ (∀ i : ℕ, col[i]? = some none →
          (imputeColumn c fit col)[i]? = some (some (fillValue c fit)))
      ∧ (∀ (i : ℕ) (v : ℚ), col[i]? = some (some v) →
          (imputeColumn c fit col)[i]? = some (some v))
      ∧ fillValue ColumnClass.zscored fit = 0
      ∧ (c ≠ ColumnClass.zscored → fillValue c fit = median (fit.filterMap id)) := by
  intro c fit col
  refine ⟨?_, ?_, ?_, ?_, rfl, ?_⟩
  · intro x hx
    rcases List.mem_map.mp hx with ⟨o, _, rfl⟩
    rfl
  · exact List.length_map col _
  · intro i hi
    simp [imputeColumn, List.getElem?_map, hi]
  · intro i v hi
    simp [imputeColumn, List.getElem?_map, hi]
  · intro hc
    cases c with
    | zscored => exact absurd rfl hc
    | ordinal => rfl
    | coverage => rfl
    | time => rfl

/-- Witness for C2: imputing the ordinal column `[none, some 5]` with fitting
population `[some 1, none, some 3, some 2]` fills the missing first cell with
the fill value (the median 2 of the non-missing fitting values). -/
theorem c2_imputer_no_missing_witness :
    (imputeColumn ColumnClass.ordinal [some 1, none, some 3, some 2] [none, some 5])[0]? =
      some (some (fillValue ColumnClass.ordinal [some 1, none, some 3, some 2])) :=
  (c2_imputer_no_missing ColumnClass.ordinal [some 1, none, some 3, some 2]
    [none, some 5]).2.2.1 0 rfl

theorem getLast?_cons_of_ne (x : α) (l : List α) (h : l ≠ []) :
    (x :: l).getLast? = l.getLast? := by
  cases l with
  | nil => exact absurd rfl h
  | cons y t => exact List.getLast?_cons_cons

theorem nextDayTarget_length : ∀ l : List BurdenRow, (nextDayTarget l).length = l.length
  | [] => rfl
  | [_] => rfl
  | a :: b :: t => by
    simp only [nextDayTarget, List.length_cons]
    rw [nextDayTarget_length (b :: t)]
    simp

theorem nextDayTarget_getLast :
    ∀ (a : BurdenRow) (t : List BurdenRow), (nextDayTarget (a :: t)).getLast? = some none
  | _, [] => rfl
  | a, b :: t2 => by
    have ih := nextDayTarget_getLast b t2
    have hne : nextDayTarget (b :: t2) ≠ [] := by
      intro h
      have hlen := nextDayTarget_length (b :: t2)
      rw [h] at hlen
      simp at hlen
    calc (nextDayTarget (a :: b :: t2)).getLast?
        = (some (100 * (1 - blendedBurden b)) :: nextDayTarget (b :: t2)).getLast? := by
          simp only [nextDayTarget]
      _ = (nextDayTarget (b :: t2)).getLast? := getLast?_cons_of_ne _ _ hne
      _ = some none := ih

/-! ## C5: Cleaner repair, ordinal encoding and min-max scaling -/

/-- C5: after the Cleaner's numeric-string repair, the raw symptom values "3" and
"Moderate" both encode to the integer 3 and scale to 0.6 = 3/5, and
`flow_volume` = "Moderate" encodes to 4 and scales to 4/7, the divisors being
the fixed theoretical maxima 5 and 7 of the label tables. -/
theorem c5_ordinal_encoding_scaling :
    encodeSeverity (cleanOrdinalValue "3") = some 3
    ∧ encodeSeverity (cleanOrdinalValue "Moderate") = some 3
    ∧ scaleSeverity 3 = 0.6
    ∧ scaleSeverity 3 = 3 / 5
    ∧ encodeFlowVolume "Moderate" = some 4
    ∧ scaleFlowVolume 4 = 4 / 7 := by
  refine ⟨by decide, by decide, ?_, ?_, by decide, ?_⟩
  · norm_num [scaleSeverity]
  · norm_num [scaleSeverity]
  · norm_num [scaleFlowVolume]

/-! ## C6: coverage ratios and the final schema -/

/-- C6: every coverage ratio is the raw daily count divided by the sensor's fixed
expected daily maximum, clipped into `[0, 1]`; when the count does not exceed
the maximum the ratio is exactly `count / max`; and the four raw count columns
are absent from the 60-column final schema, which instead carries the four
coverage columns. -/
theorem c6_coverage_ratios :
    (∀ (s : Sensor) (count : ℕ),
      0 ≤ coverageRatio s count ∧ coverageRatio s count ≤ 1)
    ∧ (∀ (s : Sensor) (count : ℕ), count ≤ expectedDailyMax s →
        coverageRatio s count = (count : ℚ) / (expectedDailyMax s : ℚ))
    ∧ (∀ s : Sensor, countColumn s ∉ finalSchema ∧ coverageColumn s ∈ finalSchema)
    ∧ finalSchema.length = 60 := by
  have hpos : ∀ s : Sensor, (0 : ℚ) < (expectedDailyMax s : ℚ) := by
    intro s
    cases s <;> norm_num [expectedDailyMax]
  refine ⟨?_, ?_, ?_, rfl⟩
  · intro s count
    constructor
    · exact le_min (by norm_num) (le_max_left 0 _)
    · exact min_le_left 1 _
  · intro s count hle
    have h0 : (0 : ℚ) ≤ (count : ℚ) / (expectedDailyMax s : ℚ) :=
      div_nonneg (by positivity) (le_of_lt (hpos s))
    have h1 : (count : ℚ) / (expectedDailyMax s : ℚ) ≤ 1 := by
      rw [div_le_one (hpos s)]
      exact_mod_cast hle
    unfold coverageRatio clip01
    rw [max_eq_right h0, min_eq_right h1]
  · intro s
    cases s <;> exact ⟨by decide, by decide⟩

/-- Witness for C6: 720 wrist-temperature readings out of the expected 1440 give
coverage exactly 720/1440 = 1/2. -/
theorem c6_coverage_ratios_witness :
    coverageRatio Sensor.wristTemp 720 = (720 : ℚ) / (1440 : ℚ) :=
  c6_coverage_ratios.2.1 Sensor.wristTemp 720 (by norm_num [expectedDailyMax])

/-! ## C7: one-hot exclusivity -/

/-- C7: for every row whose source `phase` or `flow_color` value is non-null (one
of the fixed categories), exactly one indicator column of that category group
is 1 and all others are 0; a null source value yields all zeros. -/
theorem c7_onehot_exclusivity :
    (∀ c ∈ phaseCategories, ExactlyOneHot (oneHot phaseCategories (some c)))
    ∧ (∀ c ∈ flowColorCategories, ExactlyOneHot (oneHot flowColorCategories (some c)))
    ∧ (∀ (cats : List String), ∀ x ∈ oneHot cats none, x = 0) := by
  refine ⟨by decide, by decide, ?_⟩
  intro cats x hx
  rcases List.mem_map.mp hx with ⟨c, _, rfl⟩
  simp

/-- Witness for C7: the row `phase = "Luteal"` has exactly one of the four phase
indicator columns set. -/
theorem c7_onehot_exclusivity_witness :
    ExactlyOneHot (oneHot phaseCategories (some "Luteal")) :=
  c7_onehot_exclusivity.1 "Luteal" (by decide)

/-! ## C8: blended burden target -/

/-- C8: `symptom_burden` is the mean of the 12 ordinal symptom columns,
`blended_burden` is `0.55 * symptom_burden + 0.30 * stress_component +
0.15 * (1 - recovery_component)`, and the label is `100 * (1 - blended_burden)`
of the next day within the participant's sequence: defined by the next day's
row at every position but the last, and `none` (dropped) at the participant's
last observed day. -/
theorem c8_blended_burden_target :
    (∀ r : BurdenRow, r.symptoms.length = 12 → symptomBurden r = r.symptoms.sum / 12)
    ∧ (∀ r : BurdenRow, blendedBurden r =
        55 / 100 * symptomBurden r + 30 / 100 * r.stress_component
          + 15 / 100 * (1 - r.recovery_component))
    ∧ (∀ l : List BurdenRow, (nextDayTarget l).length = l.length)
    ∧ (∀ l : List BurdenRow, l ≠ [] → (nextDayTarget l).getLast? = some none)
    ∧ (∀ (l : List BurdenRow) (i : ℕ) (d2 : BurdenRow), l[i + 1]? = some d2 →
        (nextDayTarget l)[i]? = some (some (100 * (1 - blendedBurden d2)))) := by
  refine ⟨?_, ?_, ?_, ?_, ?_⟩
  · intro r h
    rw [symptomBurden, lmean, h]
    norm_num
  · intro r
    rw [blendedBurden]
    norm_num
  · exact nextDayTarget_length
  · intro l hl
    cases l with
    | nil => exact absurd rfl hl
    | cons a t => exact nextDayTarget_getLast a t
  · intro l
    induction l with
    | nil =>
      intro i d2 h
      simp at h
    | cons a t ih =>
      intro i d2 h
      cases t with
      | nil =>
        rw [List.getElem?_cons_succ] at h
        simp at h
      | cons b t2 =>
        cases i with
        | zero =>
          rw [List.getElem?_cons_succ, List.getElem?_cons_zero] at h
          injection h with h2
          subst h2
          simp [nextDayTarget]
        | succ j =>
          rw [List.getElem?_cons_succ] at h
          simp only [nextDayTarget, List.getElem?_cons_succ]
          exact ih j d2 h

/-- Witness for C8: for a two-day participant sequence the last target is `none`
and the first day's target is computed from the second day's blended burden. -/
theorem c8_blended_burden_target_witness :
    (nextDayTarget [⟨[1], 0, 0⟩, ⟨[0], 1, 1⟩]).getLast? = some none :=
  c8_blended_burden_target.2.2.2.1 [⟨[1], 0, 0⟩, ⟨[0], 1, 1⟩] (by simp)

/-! ## C3: temporal isolation of the Temporal Feature Builder -/

theorem sortRows_sorted (l : List SRow) : List.Sorted rowLE (sortRows l) :=
  List.sorted_insertionSort rowLE l

theorem sortRows_perm (l : List SRow) : (sortRows l).Perm l :=
  List.perm_insertionSort rowLE l

theorem sorted_keysNodup_eq (l1 l2 : List SRow) (hp : l1.Perm l2)
    (h1 : List.Sorted rowLE l1) (h2 : List.Sorted rowLE l2)
    (hn : (l1.map rkey).Nodup) : l1 = l2 := by
  have hn2 : (l2.map rkey).Nodup := ((hp.map rkey).nodup_iff).mp hn
  have s1 : List.Sorted rowLT l1 := h1.and (List.pairwise_map.mp hn)
  have s2 : List.Sorted rowLT l2 := h2.and (List.pairwise_map.mp hn2)
  exact List.eq_of_perm_of_sorted hp s1 s2

theorem sortRows_eq_of_perm {rows1 rows2 : List SRow} (h : rows1.Perm rows2)
    (hn : KeysNodup rows1) : sortRows rows1 = sortRows rows2 :=
  sorted_keysNodup_eq _ _
    ((sortRows_perm rows1).trans (h.trans (sortRows_perm rows2).symm))
    (sortRows_sorted rows1) (sortRows_sorted rows2)
    (((sortRows_perm rows1).map rkey).nodup_iff.mpr hn)

/-- C3: the Temporal Feature Builder is order-independent and participant-isolated.
First, shuffling the row order of the input table (any permutation) leaves every
participant's lag-1/delta/rolling feature rows identical.  Second, the feature
rows of participant `p` do not depend on any other participant's rows: adding
rows that all belong to other participants changes nothing for `p`. -/
theorem c3_temporal_isolation :
    (∀ (rows1 rows2 : List SRow) (p : ℕ), rows1.Perm rows2 → KeysNodup rows1 →
      temporalFeatures rows1 p = temporalFeatures rows2 p)
    ∧ (∀ (rows extra : List SRow) (p : ℕ), KeysNodup (rows ++ extra) →
      (∀ r ∈ extra, r.id ≠ p) →
      temporalFeatures (rows ++ extra) p = temporalFeatures rows p) := by
  constructor
  · intro rows1 rows2 p hp hn
    unfold temporalFeatures
    rw [sortRows_eq_of_perm hp hn]
  · intro rows extra p hn hex
    unfold temporalFeatures
    congr 1
    have hext : extra.filter (fun r => r.id == p) = [] := by
      rw [List.filter_eq_nil_iff]
      intro r hr
      simp only [beq_iff_eq]
      exact hex r hr
    have hperm : ((sortRows (rows ++ extra)).filter (fun r => r.id == p)).Perm
        ((sortRows rows).filter (fun r => r.id == p)) := by
      refine ((sortRows_perm (rows ++ extra)).filter _).trans ?_
      rw [List.filter_append, hext, List.append_nil]
      exact ((sortRows_perm rows).filter (fun r => r.id == p)).symm
    have hkeys : (((sortRows (rows ++ extra)).filter (fun r => r.id == p)).map rkey).Nodup := by
      have hall : ((sortRows (rows ++ extra)).map rkey).Nodup :=
        ((sortRows_perm (rows ++ extra)).map rkey).nodup_iff.mpr hn
      exact List.Nodup.sublist ((List.filter_sublist _).map rkey) hall
    exact sorted_keysNodup_eq _ _ hperm
      ((sortRows_sorted (rows ++ extra)).filter _)
      ((sortRows_sorted rows).filter _) hkeys

/-- Witness for C3: reversing a three-row table (two rows of participant 1, one
of participant 2) leaves participant 1's temporal feature rows unchanged. -/
theorem c3_temporal_isolation_witness :
    temporalFeatures [⟨1, 2, 5⟩, ⟨1, 1, 3⟩, ⟨2, 1, 7⟩] 1 =
      temporalFeatures [⟨2, 1, 7⟩, ⟨1, 1, 3⟩, ⟨1, 2, 5⟩] 1 :=
  c3_temporal_isolation.1 [⟨1, 2, 5⟩, ⟨1, 1, 3⟩, ⟨2, 1, 7⟩]
    [⟨2, 1, 7⟩, ⟨1, 1, 3⟩, ⟨1, 2, 5⟩] 1 (by decide) (by decide)

/-! ## C4: the Merger -/

theorem mem_outerJoinKeys_left {k : MKey} {t1 t2 : List MKey} (h : k ∈ t1) :
    k ∈ outerJoinKeys t1 t2 :=
  List.mem_append_left _ h

theorem mem_outerJoinKeys_right {k : MKey} {t1 t2 : List MKey} (h : k ∈ t2) :
    k ∈ outerJoinKeys t1 t2 := by
  by_cases h1 : k ∈ t1
  · exact List.mem_append_left _ h1
  · refine List.mem_append_right _ ?_
    rw [List.mem_filter]
    exact ⟨h, by simpa using h1⟩

theorem length_outerJoinKeys {t1 t2 : List MKey} :
    t1.length ≤ (outerJoinKeys t1 t2).length := by
  unfold outerJoinKeys
  rw [List.length_append]
  omega

/-- C4: for any six per-day key tables, the Merger's sequential outer join yields
a table with at least as many rows as the base (self-report/hormone) table,
containing every key present in any of the six inputs, and sorted ascending by
`(id, study_interval, day_in_study)`. -/
theorem c4_merge_outer_join :
    ∀ base t1 t2 t3 t4 t5 : List MKey,
      base.length ≤ (mergeAllKeys base t1 t2 t3 t4 t5).length
      ∧ (∀ k : MKey, (k ∈ base ∨ k ∈ t1 ∨ k ∈ t2 ∨ k ∈ t3 ∨ k ∈ t4 ∨ k ∈ t5) →
          k ∈ mergeAllKeys base t1 t2 t3 t4 t5)
      ∧ List.Sorted mkeyLE (mergeAllKeys base t1 t2 t3 t4 t5) := by
  intro base t1 t2 t3 t4 t5
  refine ⟨?_, ?_, List.sorted_insertionSort mkeyLE _⟩
  · unfold mergeAllKeys
    rw [List.length_insertionSort]
    calc base.length
        ≤ (outerJoinKeys base t1).length := length_outerJoinKeys
      _ ≤ (outerJoinKeys (outerJoinKeys base t1) t2).length := length_outerJoinKeys
      _ ≤ (outerJoinKeys (outerJoinKeys (outerJoinKeys base t1) t2) t3).length :=
          length_outerJoinKeys
      _ ≤ (outerJoinKeys (outerJoinKeys (outerJoinKeys (outerJoinKeys base t1) t2) t3)
            t4).length := length_outerJoinKeys
      _ ≤ (outerJoinKeys (outerJoinKeys (outerJoinKeys (outerJoinKeys
            (outerJoinKeys base t1) t2) t3) t4) t5).length := length_outerJoinKeys
  · intro k hk
    unfold mergeAllKeys
    rw [List.mem_insertionSort]
    rcases hk with h | h | h | h | h | h
    · exact mem_outerJoinKeys_left (mem_outerJoinKeys_left (mem_outerJoinKeys_left
        (mem_outerJoinKeys_left (mem_outerJoinKeys_left h))))
    · exact mem_outerJoinKeys_left (mem_outerJoinKeys_left (mem_outerJoinKeys_left
        (mem_outerJoinKeys_left (mem_outerJoinKeys_right h))))
    · exact mem_outerJoinKeys_left (mem_outerJoinKeys_left (mem_outerJoinKeys_left
        (mem_outerJoinKeys_right h)))
    · exact mem_outerJoinKeys_left (mem_outerJoinKeys_left (mem_outerJoinKeys_right h))
    · exact mem_outerJoinKeys_left (mem_outerJoinKeys_right h)
    · exact mem_outerJoinKeys_right h

/-- Witness for C4: a key present only in the last sensor table (the computed
temperature days absent from the hormones base table) still appears in the
merged table. -/
theorem c4_merge_outer_join_witness :
    (⟨7, 2022, false, 3⟩ : MKey) ∈
      mergeAllKeys [⟨1, 2022, false, 1⟩] [] [] [] [] [⟨7, 2022, false, 3⟩] :=
  (c4_merge_outer_join [⟨1, 2022, false, 1⟩] [] [] [] [] [⟨7, 2022, false, 3⟩]).2.1
    ⟨7, 2022, false, 3⟩ (by simp)

/-! ## C10: the frontend API client -/

/-- C10 counterexample: on an ok response whose parsed body is the object
`⦃users: [1]⦄`, `fetchUsers` returns the `users` field `[1]`, not the parsed
JSON response body itself, so not every client function returns the parsed
body on success. -/
theorem c10_fetchUsers_counterexample :
    fetchUsers ⟨true, 200, Json.jobj [("users", Json.jarr [Json.jnum 1])]⟩ =
      Except.ok (Json.jarr [Json.jnum 1])
    ∧ fetchUsers ⟨true, 200, Json.jobj [("users", Json.jarr [Json.jnum 1])]⟩ ≠
      Except.ok (Json.jobj [("users", Json.jarr [Json.jnum 1])]) := by
  constructor
  · rfl
  · intro h
    rw [show fetchUsers ⟨true, 200, Json.jobj [("users", Json.jarr [Json.jnum 1])]⟩ =
      Except.ok (Json.jarr [Json.jnum 1]) from rfl] at h
    injection h with h2
    exact Json.noConfusion h2

/-- C10 (amended): every client function returns an error naming the failed
request exactly when the response is not ok (none silently returns a value);
on an ok response, `fetchPrediction`, `fetchTimeline`, `fetchModelInfo` and
`simulatePrediction` return the parsed JSON body, while `fetchUsers` returns
the `users` field of the parsed body. -/
theorem c10_api_client_error_contract :
    ∀ (r : HttpResponse) (req : Json),
      (r.ok = true →
        fetchPrediction r = Except.ok r.body
        ∧ fetchUsers r = Except.ok (getField r.body "users")
        ∧ fetchTimeline r = Except.ok r.body
        ∧ fetchModelInfo r = Except.ok r.body
        ∧ simulatePrediction req r = Except.ok r.body)
      ∧ (r.ok = false →
        fetchPrediction r = Except.error ("Prediction request failed: " ++ toString r.status)
        ∧ fetchUsers r = Except.error ("Users request failed: " ++ toString r.status)
        ∧ fetchTimeline r = Except.error ("Timeline request failed: " ++ toString r.status)
        ∧ fetchModelInfo r = Except.error ("Model info request failed: " ++ toString r.status)
        ∧ simulatePrediction req r =
            Except.error ("Simulation request failed: " ++ toString r.status)) := by
  intro r req
  constructor
  · intro h
    refine ⟨?_, ?_, ?_, ?_, ?_⟩ <;>
      simp [fetchPrediction, fetchUsers, fetchTimeline, fetchModelInfo,
        simulatePrediction, h]
  · intro h
    refine ⟨?_, ?_, ?_, ?_, ?_⟩ <;>
      simp [fetchPrediction, fetchUsers, fetchTimeline, fetchModelInfo,
        simulatePrediction, h]

/-- Witness for C10: a 404 response makes `fetchPrediction` return the error
naming the prediction request with its status code. -/
theorem c10_api_client_error_contract_witness :
    fetchPrediction ⟨false, 404, Json.null⟩ =
      Except.error ("Prediction request failed: " ++ toString (404 : ℕ)) :=
  ((c10_api_client_error_contract ⟨false, 404, Json.null⟩ Json.null).2 rfl).1

end HerForecast
